import Mathlib

/-!
Verification of the batch-pddl-generator instance-generation pipeline.

Shallow embedding of `src/domains.py` and `src/generate-instances.py`:
Python ints are modelled as `Int`, Python floats as `Rat` (exact arithmetic;
the concrete values appearing in the verified claims are exactly
representable, and all statements proved here are independent of the
float/rational distinction), Python dicts as insertion-ordered association
lists.  The third-party `ConfigSpace.util.generate_grid` and the repository
module `utils.py` (absent from the sources) are modelled from the spec where
noted.
-/

/-- A value stored in a configuration: Python int, float or str. -/
inductive Value
  | int (z : Int)
  | rat (q : Rat)
  | str (s : String)
  deriving DecidableEq, Repr

/-- Python `int(q)`: truncation toward zero. -/
def ratTrunc (q : Rat) : Int :=
  if q < 0 then ⌈q⌉ else ⌊q⌋

/-- Python `range(lo, hi + 1)` as a list of integers (the admissible set of a
`UniformIntegerHyperparameter(lower=lo, upper=hi)` enumerated on the full
grid, see `num_steps_dict` in `generate-instances.py`). -/
def intRangeList (lo hi : Int) : List Int :=
  (List.range (hi + 1 - lo).toNat).map (fun (k : Nat) => lo + (k : Int))

/-- Python `range(lo, hi + 1, step)` for positive `step` (the `choices` built
by `get_int` when `step_size > 1`). -/
def stepRangeList (lo hi step : Int) : List Int :=
  (List.range (⌈((hi + 1 - lo) : Rat) / (step : Rat)⌉.toNat)).map
    (fun (k : Nat) => lo + (k : Int) * step)

/-- `numpy.round` to integer: round half to even (banker's rounding). -/
def roundHalfEven (q : Rat) : Int :=
  if 2 * (q - ⌊q⌋) = 1 then
    (if Even ⌊q⌋ then ⌊q⌋ else ⌊q⌋ + 1)
  else
    round q

/-- `numpy.round(q, decimals=10)` from `get_float`. -/
def round10 (q : Rat) : Rat :=
  (roundHalfEven (q * 10 ^ 10) : Rat) / 10 ^ 10

/-- `numpy.arange(start, stop, step)` for positive `step`: the values
`start + k * step` for `0 ≤ k < ⌈(stop - start) / step⌉`. -/
def npArange (start stop step : Rat) : List Rat :=
  (List.range (⌈(stop - start) / step⌉.toNat)).map
    (fun (k : Nat) => start + (k : Rat) * step)

/-- The `choices` computed by `get_float(name, lower, upper, precision)` in
`domains.py` when `precision > 0`: step from `lower` to
`upper + precision/2` at `precision`, round to 10 decimals, and filter back
into `[lower, upper]`. -/
def get_float_choices (lower upper precision : Rat) : List Rat :=
  (((npArange lower (upper + precision / 2) precision).map round10).filter
    (fun v => lower ≤ v && v ≤ upper))

/-- A hyperparameter as built by `get_int` / `get_float` / `get_enum` /
`Constant` in `domains.py` (the `default_value` only seeds ConfigSpace's
default configuration and plays no role in grid enumeration, so it is not
recorded). -/
inductive HP
  | uniformInt (name : String) (lower upper : Int)
  | categorical (name : String) (choices : List Value)
  | const (name : String) (v : Value)
  deriving DecidableEq, Repr

def HP.name : HP → String
  | .uniformInt n _ _ => n
  | .categorical n _ => n
  | .const n _ => n

/-- The admissible-value set of a hyperparameter. -/
def HP.values : HP → List Value
  | .uniformInt _ lo hi => (intRangeList lo hi).map Value.int
  | .categorical _ cs => cs
  | .const _ v => [v]

/-- `get_int` from `domains.py`: a uniform integer hyperparameter for
`step_size = 1`, otherwise a categorical one over the stepped range. -/
def get_int (name : String) (lower upper : Int) (step_size : Int := 1) : HP :=
  if step_size = 1 then
    .uniformInt name lower upper
  else
    .categorical name ((stepRangeList lower upper step_size).map Value.int)

/-- `get_float` from `domains.py` for `precision > 0` (every registry entry
passes a positive precision): a categorical hyperparameter over the
discretized values. -/
def get_float (name : String) (lower upper precision : Rat) : HP :=
  .categorical name ((get_float_choices lower upper precision).map Value.rat)

/-- `get_enum` from `domains.py`. -/
def get_enum (name : String) (choices : List Value) : HP :=
  .categorical name choices

/-- A configuration: a mapping from parameter name to value (one grid
point). -/
abbrev Config := List (String × Value)

/-- Modelled from the spec: `ConfigSpace.util.generate_grid` is third-party
library code; per spec §4.2 the grid is the full cartesian product of the
parameters' admissible sets (the `num_steps_dict` computed in `main` makes
integer ranges enumerate every integer value). -/
def gridOf : List HP → List Config
  | [] => [[]]
  | hp :: rest =>
      hp.values.flatMap (fun v => (gridOf rest).map (fun cfg => (hp.name, v) :: cfg))

/-- `TMP_PROBLEM` from `domains.py`: fixed filename some generators write to. -/
def TMP_PROBLEM : String := "tmp-problem.pddl"

/-- `TMP_DOMAIN` from `domains.py`: fixed filename for per-instance domain
files. -/
def TMP_DOMAIN : String := "tmp-domain.pddl"

/-- `needle` occurs at the head of `hay`. -/
def charsMatchAt : List Char → List Char → Bool
  | [], _ => true
  | _ :: _, [] => false
  | a :: as, b :: bs => a = b && charsMatchAt as bs

/-- `needle` occurs somewhere in `hay`. -/
def listContainsSub (needle : List Char) : List Char → Bool
  | [] => needle.isEmpty
  | c :: t => charsMatchAt needle (c :: t) || listContainsSub needle t

/-- Python's substring test `needle in hay`. -/
def strContains (hay needle : String) : Bool :=
  listContainsSub needle.toList hay.toList

/-- The `Domain` class of `domains.py`, restricted to the data the claims
are about.  The optional `adapt_parameters` callables of the source are
kept as the standalone per-domain functions below, exactly as in the
source file. -/
structure Domain where
  name : String
  command_template : String
  attributes : List HP
  deriving DecidableEq, Repr

/-- `Domain.uses_per_instance_domain_file` from `domains.py`. -/
def Domain.uses_per_instance_domain_file (d : Domain) : Bool :=
  strContains d.command_template TMP_DOMAIN

/-- Registry entry `barman` from `domains.py`. -/
def barman : Domain :=
  { name := "barman",
    command_template := "barman-generator.py {cocktails} {ingredients} {shots} {seed}",
    attributes := [get_int "cocktails" 1 10, get_int "shots" 1 5, get_int "ingredients" 2 6] }

/-- Registry entry `ferry` from `domains.py`. -/
def ferry : Domain :=
  { name := "ferry",
    command_template := "ferry -l {locations} -c {cars} -s {seed}",
    attributes := [get_int "locations" 1 30, get_int "cars" 1 30] }

/-- Registry entry `floortile` from `domains.py`. -/
def floortile : Domain :=
  { name := "floortile",
    command_template := "floortile-generator.py name {rows} {columns} {robots} seq {seed}",
    attributes := [get_int "rows" 2 6, get_int "columns" 2 6, get_int "robots" 1 6] }

/-- Registry entry `maintenance` from `domains.py`. -/
def maintenance : Domain :=
  { name := "maintenance",
    command_template := "maintenance {days} {planes} {mechanics} {cities} {visits} {seed}",
    attributes := [get_int "days" 60 300 20] }

/-- Registry entry `tpp` from `domains.py` (its template ends with
`TMP_PROBLEM`). -/
def tpp : Domain :=
  { name := "tpp",
    command_template := "tpp -s {seed} -m {markets} -p {products} -t {trucks} -d {depots} -l {goods} tmp-problem.pddl",
    attributes := [get_int "products" 2 20, get_int "markets" 1 10, get_int "trucks" 2 10,
      get_int "depots" 1 10, get_int "goods" 3 10] }

/-- Registry entry `pathways` from `domains.py` (its template mentions both
`TMP_DOMAIN` and `TMP_PROBLEM` via an f-string). -/
def pathways : Domain :=
  { name := "pathways",
    command_template := "wrapper.py --seed {seed} --reactions {reactions} --goals {goals} --initial-substances {substances} tmp-domain.pddl tmp-problem.pddl",
    attributes := [get_int "reactions" 10 1010 50, get_int "goals" 10 90 10,
      get_int "substances" 10 80 10] }

/-- Registry entry `grid` from `domains.py`. -/
def gridDomain : Domain :=
  { name := "grid",
    command_template := "generate.py {x} {y} --shapes {shapes} --keys {keys} --locks {locks} --prob-goal {prob_key_in_goal} --seed {seed}",
    attributes := [get_int "x" 2 5, get_int "y" 2 5,
      get_float "prob_key_in_goal" (1/2) 1 (1/2),
      get_int "shapes" 1 2, get_int "extra_keys" 1 2,
      get_float "percentage_cells_locked" (3/10) (9/10) (3/10)] }

/-! ### Typed views of the per-domain configurations

Each adapt function in `domains.py` reads and writes a fixed set of keys of
its parameter dict; the records below are the typed shallow embedding of
those dicts (`Int` fields for Python ints, `Rat` for floats).  For the
domains whose adapt function adds derived keys (`grid`: `keys`, `locks`;
`maintenance`: `planes`, `mechanics`, `cities`, `visits`) the record carries
those fields as well, so record equality is dict equality on the full key
set. -/

structure BarmanParams where
  cocktails : Int
  shots : Int
  ingredients : Int
  deriving DecidableEq, Repr

structure FloortileParams where
  rows : Int
  columns : Int
  robots : Int
  deriving DecidableEq, Repr

structure GridParams where
  x : Int
  y : Int
  prob_key_in_goal : Rat
  shapes : Int
  extra_keys : Int
  percentage_cells_locked : Rat
  keys : Int
  locks : Int
  deriving DecidableEq, Repr

structure MaintenanceParams where
  days : Int
  planes : Int
  mechanics : Int
  cities : Int
  visits : Int
  deriving DecidableEq, Repr

/-- `adapt_parameters_barman` from `domains.py`: raises
`IllegalConfiguration` when `shots < cocktails`, otherwise returns the
parameters unchanged. -/
def adapt_parameters_barman (p : BarmanParams) : Except String BarmanParams :=
  if p.shots < p.cocktails then
    .error "we need shots >= cocktails"
  else
    .ok p

/-- `adapt_parameters_floortile` from `domains.py`:
`robots = min(robots, columns)`. -/
def adapt_parameters_floortile (p : FloortileParams) : FloortileParams :=
  { p with robots := min p.robots p.columns }

/-- `adapt_parameters_grid` from `domains.py`.  The dict updates are
sequential: the `keys` update reads the already-updated `shapes`, and the
`locks` update reads the already-updated `shapes` as well;
`int(x * y * percentage_cells_locked)` is Python truncation toward zero. -/
def adapt_parameters_grid (p : GridParams) : GridParams :=
  let shapes := min (p.x * p.y - 1) p.shapes
  let keys := min (p.x * p.y - 1) (shapes + p.extra_keys)
  let locks0 := ratTrunc ((p.x * p.y : Int) * p.percentage_cells_locked)
  let locks := max locks0 shapes
  { p with shapes := shapes, keys := keys, locks := locks }

/-- `adapt_parameters_maintenance` from `domains.py`:
`planes = 3 * days`, `mechanics = 1`, `cities = 3`, `visits = 5`. -/
def adapt_parameters_maintenance (p : MaintenanceParams) : MaintenanceParams :=
  { p with planes := 3 * p.days, mechanics := 1, cities := 3, visits := 5 }

/-! ### The generation loop of `generate-instances.py`

`utils.generate_input_files` and `utils.collect_task` live in `utils.py`,
which is not among the sources; per the spec they invoke the domain's
external generator under the configured timeout and move the produced files
into the destination.  The external generator (plus the file collection) is
therefore abstracted as an oracle reporting, per (configuration, seed), one
of the outcomes distinguished by the `try`/`except` clauses of
`generate_task`: success, `subprocess.CalledProcessError`,
`subprocess.TimeoutExpired`, or any other (uncaught, hence fatal)
exception. -/

/-- Outcome of one external-generator invocation as observed by
`generate_task`. -/
inductive GenResult
  | success
  | calledProcessError (msg : String)
  | timeoutExpired (msg : String)
  | fatal (msg : String)
  deriving DecidableEq, Repr

/-- Terminal outcome of one generation attempt (spec §4.4). -/
inductive AttemptOutcome (α : Type)
  | rejected (reason : String)
  | succeeded (cfg : α)
  | procError (msg : String)
  | timedOut (msg : String)
  deriving DecidableEq, Repr

/-- One message sent to the log stream. -/
inductive LogMsg
  | warning (s : String)
  | info (s : String)
  | error (s : String)
  deriving DecidableEq, Repr

/-- Observable record of one `generate_task` call.  `adaptRuns` counts the
invocations of `Domain.adapt_parameters` made by this call: the source runs
it exactly once per call (line 46 of `generate-instances.py`). -/
structure Attempt (α : Type) where
  outcome : AttemptOutcome α
  adaptRuns : Nat
  generatorInvoked : Bool
  filesCollected : Bool
  log : List LogMsg
  deriving DecidableEq, Repr

/-- The attempt produced when `adapt` rejects the configuration. -/
def rejectedAttempt {α : Type} (reason : String) : Attempt α :=
  { outcome := .rejected reason, adaptRuns := 1, generatorInvoked := false,
    filesCollected := false,
    log := [.warning ("Skipping illegal configuration: " ++ reason)] }

/-- `generate_task` from `generate-instances.py`: adapt the configuration
(skipping with a warning on `IllegalConfiguration`), invoke the generator
via `utils.generate_input_files` (recovering with an error log from
`CalledProcessError` and `TimeoutExpired`), then collect the produced files.
Any other exception propagates (the `Except.error` case). -/
def generate_task {α : Type} (adapt : α → Except String α)
    (gen : α → Nat → GenResult) (cfg : α) (seed : Nat) :
    Except String (Attempt α) :=
  match adapt cfg with
  | .error reason => .ok (rejectedAttempt reason)
  | .ok cfg' =>
      match gen cfg' seed with
      | .success =>
          .ok { outcome := .succeeded cfg', adaptRuns := 1, generatorInvoked := true,
                filesCollected := true, log := [.info "Create instance"] }
      | .calledProcessError m =>
          .ok { outcome := .procError m, adaptRuns := 1, generatorInvoked := true,
                filesCollected := false,
                log := [.info "Create instance", .error ("Failed to generate task: " ++ m)] }
      | .timeoutExpired m =>
          .ok { outcome := .timedOut m, adaptRuns := 1, generatorInvoked := true,
                filesCollected := false,
                log := [.info "Create instance", .error ("Failed to generate task: " ++ m)] }
      | .fatal m => .error m

/-- The attempt `generate_task` produces when the oracle reports one of the
three expected results (under a non-fatal oracle this is exactly the
`Except.ok` payload of `generate_task`, see `generate_task_eq_attemptOf`).
The `fatal` branch is never reached under that hypothesis; it is mapped to
an arbitrary fixed attempt. -/
def attemptOf {α : Type} (adapt : α → Except String α)
    (gen : α → Nat → GenResult) (cfg : α) (seed : Nat) : Attempt α :=
  match generate_task adapt gen cfg seed with
  | .ok a => a
  | .error _ => rejectedAttempt "unreachable"

/-- The `(configuration, seed)` pairs visited by the nested loop of `main`
(`for cfg in grid: for seed in range(num_random_seeds): ...`), in loop
order. -/
def attemptPairs {α : Type} (grid : List α) (numSeeds : Nat) : List (α × Nat) :=
  grid.flatMap (fun cfg => (List.range numSeeds).map (fun seed => (cfg, seed)))

/-- Run `generate_task` on each pair in order; an uncaught exception aborts
the whole loop (Python unwinds out of `main`). -/
def runAttempts {α : Type} (adapt : α → Except String α)
    (gen : α → Nat → GenResult) : List (α × Nat) → Except String (List (Attempt α))
  | [] => .ok []
  | p :: ps =>
      match generate_task adapt gen p.1 p.2 with
      | .error e => .error e
      | .ok a =>
          match runAttempts adapt gen ps with
          | .error e => .error e
          | .ok rest => .ok (a :: rest)

/-- The full generation loop of `main` over grid × seeds. -/
def runBatch {α : Type} (adapt : α → Except String α)
    (gen : α → Nat → GenResult) (grid : List α) (numSeeds : Nat) :
    Except String (List (Attempt α)) :=
  runAttempts adapt gen (attemptPairs grid numSeeds)

/-- Everything observable about one run of `main`. -/
structure MainOutput where
  printedParams : Bool
  printedNumConfigs : Option Nat
  attempts : List (Attempt Config)
  tmpDirCreated : Bool
  tmpDirRemoved : Bool
  deriving DecidableEq, Repr

/-- `main` from `generate-instances.py` (named `mainRun` here because Lean
reserves `main` for executables).  It prints the parameter dict,
builds the grid, and on `--dry-run` returns immediately — before the
generation loop and before the `Number of configurations` print at the end
of the function.  Otherwise it runs the loop, removes the temporary
directory and prints the grid size.  Modelled from the spec: the temporary
working directory under the destination is created before the generation
loop (the creation lives in the absent `utils.py`), so the final
`shutil.rmtree` finds it present no matter how many attempts failed. -/
def mainRun (dryRun : Bool) (attributes : List HP)
    (adapt : Config → Except String Config) (gen : Config → Nat → GenResult)
    (numSeeds : Nat) : Except String MainOutput :=
  let grid := gridOf attributes
  if dryRun then
    .ok { printedParams := true, printedNumConfigs := none, attempts := [],
          tmpDirCreated := false, tmpDirRemoved := false }
  else
    match runBatch adapt gen grid numSeeds with
    | .error e => .error e
    | .ok atts =>
        .ok { printedParams := true, printedNumConfigs := some grid.length,
              attempts := atts, tmpDirCreated := true, tmpDirRemoved := true }

/-- `Domain.adapt_parameters` for a domain without an adaptation function
(`ferry` among others): the parameters are returned unchanged. -/
def adaptId : Config → Except String Config := fun c => .ok c

/-- Total number of `Domain.adapt_parameters` invocations made by a
completed batch. -/
def totalAdaptRuns {α : Type} : Except String (List (Attempt α)) → Nat
  | .ok l => (l.map (fun a => a.adaptRuns)).sum
  | .error _ => 0

/-! ### `Domain.generate_problem` from `domains.py` -/

/-- Result of the `subprocess.run` call inside `generate_problem`. -/
inductive ProcResult
  | exitZero
  | exitNonZero
  | timedOut
  deriving DecidableEq, Repr

/-- One externally visible step of `generate_problem`. -/
inductive Step
  | runWait                          -- subprocess.run(command, check=True, timeout=t)
  | runToFile (file : String)        -- subprocess.run(command, stdout=f, check=True, timeout=t)
  | move (src dst : String)          -- shutil.move(src, dst)
  deriving DecidableEq, Repr

/-- The trailing per-instance domain-file move of `generate_problem`. -/
def domainFileSteps (d : Domain) (domain_file : String) : List Step :=
  if d.uses_per_instance_domain_file then [Step.move TMP_DOMAIN domain_file] else []

/-- `Domain.generate_problem` from `domains.py`: if the command template
contains `TMP_PROBLEM` the process is awaited and the fixed-name file moved
to `problem_file`; otherwise the process's standard output is captured into
`problem_file`.  A non-zero exit raises `CalledProcessError` (`check=True`)
and a timeout raises `TimeoutExpired`; either aborts before any move.
Finally, if the template contains `TMP_DOMAIN`, the fixed-name domain file
is moved to `domain_file`. -/
def Domain.generate_problem (d : Domain) (problem_file domain_file : String)
    (proc : ProcResult) : Except String (List Step) :=
  match proc with
  | .exitNonZero => .error "CalledProcessError"
  | .timedOut => .error "TimeoutExpired"
  | .exitZero =>
      if strContains d.command_template TMP_PROBLEM then
        .ok ([Step.runWait, Step.move TMP_PROBLEM problem_file] ++ domainFileSteps d domain_file)
      else
        .ok ([Step.runToFile problem_file] ++ domainFileSteps d domain_file)

/-! ### Heap model of Python dict mutation

`Domain.adapt_parameters` (lines 68–71 of `domains.py`) passes
`parameters.copy()` to the per-domain adapt callable, which mutates its
argument dict in place.  To make the aliasing visible, dicts live in a heap
addressed by references; each adapt callable is re-embedded as a heap
transformer that reads and writes the dict behind the reference it is
given.  All adapt callables in the registry handle numeric values only, so
dict values are `Rat` here (Python ints are the denominator-one
rationals). -/

/-- A Python dict object: insertion-ordered association list. -/
abbrev HDict := List (String × Rat)

/-- `d[k]` (the registry's adapt callables only read keys that are present;
a missing key is given the value 0 rather than modelling `KeyError`, which
none of the claims exercises). -/
def dictGet (d : HDict) (k : String) : Rat :=
  match d with
  | [] => 0
  | (k', v) :: t => if k' = k then v else dictGet t k

/-- `d[k] = v`: overwrite in place if `k` is present, else append. -/
def dictSet (d : HDict) (k : String) (v : Rat) : HDict :=
  match d with
  | [] => [(k, v)]
  | (k', v') :: t => if k' = k then (k, v) :: t else (k', v') :: dictSet t k v

/-- The heap: dict objects addressed by allocation index. -/
structure Heap where
  dicts : List HDict
  deriving DecidableEq, Repr

/-- The dict object behind reference `r`. -/
def Heap.ref (h : Heap) (r : Nat) : HDict := h.dicts.getD r []

def listUpdateAt {β : Type} : List β → Nat → (β → β) → List β
  | [], _, _ => []
  | x :: t, 0, f => f x :: t
  | x :: t, n + 1, f => x :: listUpdateAt t n f

/-- In-place `heap[r][k] = v`. -/
def Heap.write (h : Heap) (r : Nat) (k : String) (v : Rat) : Heap :=
  ⟨listUpdateAt h.dicts r (fun d => dictSet d k v)⟩

/-- Allocate a fresh dict object (`parameters.copy()` allocates). -/
def Heap.alloc (h : Heap) (d : HDict) : Heap × Nat :=
  (⟨h.dicts ++ [d]⟩, h.dicts.length)

/-- A per-domain adapt callable as a heap transformer: given the heap and
the reference to its parameter dict, it returns the heap after its in-place
updates together with `ok` or the `IllegalConfiguration` message. -/
abbrev HeapBody := Heap → Nat → Heap × Except String Unit

/-- `adapt_parameters_barman` on the heap. -/
def heapBarman : HeapBody := fun h r =>
  if dictGet (h.ref r) "shots" < dictGet (h.ref r) "cocktails" then
    (h, .error "we need shots >= cocktails")
  else (h, .ok ())

/-- `adapt_parameters_floortile` on the heap. -/
def heapFloortile : HeapBody := fun h r =>
  (h.write r "robots" (min (dictGet (h.ref r) "robots") (dictGet (h.ref r) "columns")),
   .ok ())

/-- `adapt_parameters_freecell` on the heap. -/
def heapFreecell : HeapBody := fun h r =>
  if dictGet (h.ref r) "initial_stacks" > dictGet (h.ref r) "columns" then
    (h, .error "we need initial_stacks <= columns")
  else (h, .ok ())

/-- `adapt_parameters_grid` on the heap: four sequential in-place updates
(`shapes`, `keys`, then `locks` twice), each reading the dict as already
updated. -/
def heapGrid : HeapBody := fun h0 r =>
  let d0 := h0.ref r
  let h1 := h0.write r "shapes" (min (dictGet d0 "x" * dictGet d0 "y" - 1) (dictGet d0 "shapes"))
  let d1 := h1.ref r
  let h2 := h1.write r "keys"
    (min (dictGet d1 "x" * dictGet d1 "y" - 1) (dictGet d1 "shapes" + dictGet d1 "extra_keys"))
  let d2 := h2.ref r
  let h3 := h2.write r "locks"
    ((ratTrunc (dictGet d2 "x" * dictGet d2 "y" * dictGet d2 "percentage_cells_locked") : Rat))
  let d3 := h3.ref r
  let h4 := h3.write r "locks" (max (dictGet d3 "locks") (dictGet d3 "shapes"))
  (h4, .ok ())

/-- `adapt_parameters_hiking` on the heap. -/
def heapHiking : HeapBody := fun h r =>
  if dictGet (h.ref r) "cars" < dictGet (h.ref r) "couples" + 1 then
    (h, .error "we need cars >= couples + 1")
  else (h, .ok ())

/-- `adapt_parameters_maintenance` on the heap: four sequential in-place
updates. -/
def heapMaintenance : HeapBody := fun h0 r =>
  let h1 := h0.write r "planes" (3 * dictGet (h0.ref r) "days")
  let h2 := h1.write r "mechanics" 1
  let h3 := h2.write r "cities" 3
  let h4 := h3.write r "visits" 5
  (h4, .ok ())

/-- `adapt_parameters_spanner` on the heap. -/
def heapSpanner : HeapBody := fun h r =>
  if dictGet (h.ref r) "spanners" < dictGet (h.ref r) "nuts" then
    (h, .error "we need spanners >= nuts")
  else (h, .ok ())

/-- `adapt_parameters_sokoban` on the heap (`9.0` float division is exact
rational division here). -/
def heapSokoban : HeapBody := fun h r =>
  let grid_size := dictGet (h.ref r) "grid_size"
  let bound : Rat :=
    if grid_size ≤ 5 then 2 else (grid_size * grid_size - 5 * grid_size + 6) / 9
  if dictGet (h.ref r) "boxes" > bound then
    (h, .error "we need boxes <= bound")
  else (h, .ok ())

/-- `adapt_parameters_tetris` on the heap (`rows` is a Python int in every
configuration, so `rows % 2` is integer remainder). -/
def heapTetris : HeapBody := fun h r =>
  if ratTrunc (dictGet (h.ref r) "rows") % 2 = 1 then
    (h, .error "number of rows must be even")
  else (h, .ok ())

/-- `adapt_parameters_tidybot` on the heap. -/
def heapTidybot : HeapBody := fun h r =>
  if dictGet (h.ref r) "mintablesize" > dictGet (h.ref r) "maxtablesize" then
    (h, .error "mintablesize must be <= maxtablesize")
  else (h, .ok ())

/-- The adapt callables appearing in the `DOMAINS` registry (with `noAdapt`
for the domains constructed without one). -/
inductive AdaptFn
  | barmanA | floortileA | freecellA | gridA | hikingA | maintenanceA
  | spannerA | sokobanA | tetrisA | tidybotA | noAdapt
  deriving DecidableEq, Repr

def heapAdaptBody : AdaptFn → Option HeapBody
  | .barmanA => some heapBarman
  | .floortileA => some heapFloortile
  | .freecellA => some heapFreecell
  | .gridA => some heapGrid
  | .hikingA => some heapHiking
  | .maintenanceA => some heapMaintenance
  | .spannerA => some heapSpanner
  | .sokobanA => some heapSokoban
  | .tetrisA => some heapTetris
  | .tidybotA => some heapTidybot
  | .noAdapt => none

/-- `Domain.adapt_parameters` from `domains.py` on the heap: when the
domain has an adapt callable it is applied to `parameters.copy()` — a
freshly allocated dict with the caller's key-value pairs — and its result
(or exception) is passed on; the caller's dict object is never handed to
the callable. -/
def heapAdaptParameters (b : Option HeapBody) (h : Heap) (r : Nat) :
    Heap × Except String Nat :=
  match b with
  | none => (h, .ok r)
  | some f =>
      let hr := h.alloc (h.ref r)
      let res := f hr.1 hr.2
      (res.1, match res.2 with
        | .ok _ => .ok hr.2
        | .error e => .error e)

/-! ## Theorems -/

theorem length_flatMap_map {α β γ : Type} (l : List α) (m : List β) (g : α → β → γ) :
    (l.flatMap (fun v => m.map (g v))).length = l.length * m.length := by
  induction l with
  | nil => simp
  | cons v t ih => simp [ih]; ring

theorem gridOf_length (hps : List HP) :
    (gridOf hps).length = (hps.map (fun hp => hp.values.length)).prod := by
  induction hps with
  | nil => rfl
  | cons hp rest ih =>
      simp only [gridOf, List.map_cons, List.prod_cons]
      rw [length_flatMap_map hp.values (gridOf rest) (fun v cfg => (hp.name, v) :: cfg), ih]

theorem intRangeList_length (lo hi : Int) :
    (intRangeList lo hi).length = (hi + 1 - lo).toNat := by
  rw [intRangeList, List.length_map, List.length_range]

theorem roundHalfEven_intCast (n : Int) : roundHalfEven (n : Rat) = n := by
  rw [roundHalfEven, Int.floor_intCast]
  rw [if_neg (by norm_num)]
  exact round_intCast n

theorem round10_of_mul_int (q : Rat) (n : Int) (h : q * 10 ^ 10 = (n : Rat)) :
    round10 q = q := by
  rw [round10, h, roundHalfEven_intCast, ← h]
  field_simp

/-- C7: Discretizing the float range [1.0, 2.0] at precision 0.5 yields
exactly the admissible set {1.0, 1.5, 2.0}: `get_float` steps from `lower`
to `upper` inclusive, rounds each value to suppress floating-point drift,
and filters the result back into `[lower, upper]`. -/
theorem get_float_choices_one_two_half : get_float_choices 1 2 (1/2) = [1, 3/2, 2] := by
  have hceil : (⌈((2:Rat) + 1/2/2 - 1) / (1/2)⌉ : Int) = 3 := by norm_num [Int.ceil_eq_iff]
  rw [get_float_choices, npArange, hceil]
  have e1 : round10 (1 : Rat) = 1 := round10_of_mul_int 1 (10^10) (by norm_num)
  have e2 : round10 ((3:Rat)/2) = 3/2 := round10_of_mul_int _ (15 * 10^9) (by norm_num)
  have e3 : round10 (2 : Rat) = 2 := round10_of_mul_int 2 (2 * 10^10) (by norm_num)
  norm_num [List.range_succ, List.filter, e1, e2, e3]

/-- C3: For every domain with a repair-style adapt function (floortile,
grid, maintenance) applying adapt twice equals applying it once — proved
for every configuration record, in particular for every configuration in
the domain's grid. -/
theorem adapt_repair_idempotent :
    (∀ p : FloortileParams,
        adapt_parameters_floortile (adapt_parameters_floortile p) = adapt_parameters_floortile p) ∧
    (∀ p : GridParams,
        adapt_parameters_grid (adapt_parameters_grid p) = adapt_parameters_grid p) ∧
    (∀ p : MaintenanceParams,
        adapt_parameters_maintenance (adapt_parameters_maintenance p) = adapt_parameters_maintenance p) := by
  refine ⟨fun p => ?_, fun p => ?_, fun p => ?_⟩
  · simp [adapt_parameters_floortile, min_assoc]
  · simp only [adapt_parameters_grid]
    congr 1 <;> simp [min_assoc]
  · simp [adapt_parameters_maintenance]

/-- C5: barman's adapt rejects exactly the configurations with
`shots < cocktails` (and the driver then makes no generator invocation and
collects no files for them), and accepts every configuration with
`shots >= cocktails` unchanged. -/
theorem barman_rejection_invariant (p : BarmanParams) :
    ((adapt_parameters_barman p).isOk ↔ p.cocktails ≤ p.shots) ∧
    (p.shots < p.cocktails →
        adapt_parameters_barman p = .error "we need shots >= cocktails" ∧
        ∀ (gen : BarmanParams → Nat → GenResult) (seed : Nat),
          generate_task adapt_parameters_barman gen p seed =
            .ok (rejectedAttempt "we need shots >= cocktails")) ∧
    (p.cocktails ≤ p.shots → adapt_parameters_barman p = .ok p) := by
  refine ⟨?_, fun hlt => ⟨?_, fun gen seed => ?_⟩, fun hle => ?_⟩
  · unfold adapt_parameters_barman
    by_cases h : p.shots < p.cocktails
    · simp [h, Except.isOk, Except.toBool]
    · simp [h, Except.isOk, Except.toBool]
      omega
  · simp [adapt_parameters_barman, hlt]
  · simp [generate_task, adapt_parameters_barman, hlt]
  · simp [adapt_parameters_barman, not_lt.mpr hle, not_lt_of_ge hle]

theorem barman_rejection_invariant_witness :
    adapt_parameters_barman ⟨2, 1, 2⟩ = .error "we need shots >= cocktails" ∧
    (generate_task adapt_parameters_barman (fun _ _ => GenResult.success) ⟨2, 1, 2⟩ 0 =
      .ok (rejectedAttempt "we need shots >= cocktails")) ∧
    adapt_parameters_barman ⟨2, 3, 2⟩ = .ok ⟨2, 3, 2⟩ :=
  ⟨((barman_rejection_invariant ⟨2, 1, 2⟩).2.1 (by norm_num)).1,
   ((barman_rejection_invariant ⟨2, 1, 2⟩).2.1 (by norm_num)).2 (fun _ _ => GenResult.success) 0,
   (barman_rejection_invariant ⟨2, 3, 2⟩).2.2 (by norm_num)⟩

theorem generate_task_ok {α : Type} (adapt : α → Except String α)
    (gen : α → Nat → GenResult) (cfg : α) (seed : Nat)
    (h : ∀ c s m, gen c s ≠ .fatal m) :
    generate_task adapt gen cfg seed = .ok (attemptOf adapt gen cfg seed) := by
  cases hA : adapt cfg with
  | error e => simp [generate_task, attemptOf, hA]
  | ok c' =>
      cases hG : gen c' seed with
      | fatal m => exact absurd hG (h c' seed m)
      | success => simp [generate_task, attemptOf, hA, hG]
      | calledProcessError m => simp [generate_task, attemptOf, hA, hG]
      | timeoutExpired m => simp [generate_task, attemptOf, hA, hG]

theorem runAttempts_eq_map {α : Type} (adapt : α → Except String α)
    (gen : α → Nat → GenResult) (ps : List (α × Nat)) (f : α × Nat → Attempt α)
    (h : ∀ p ∈ ps, generate_task adapt gen p.1 p.2 = .ok (f p)) :
    runAttempts adapt gen ps = .ok (ps.map f) := by
  induction ps with
  | nil => rfl
  | cons p t ih =>
      rw [runAttempts, h p (List.mem_cons_self p t), ih (fun q hq => h q (List.mem_cons_of_mem p hq))]
      rfl

theorem attemptPairs_length {α : Type} (grid : List α) (n : Nat) :
    (attemptPairs grid n).length = grid.length * n := by
  rw [attemptPairs, length_flatMap_map grid (List.range n) (fun cfg seed => (cfg, seed)),
    List.length_range]

theorem runBatch_ok {α : Type} (adapt : α → Except String α)
    (gen : α → Nat → GenResult) (grid : List α) (numSeeds : Nat)
    (h : ∀ c s m, gen c s ≠ .fatal m) :
    runBatch adapt gen grid numSeeds =
      .ok ((attemptPairs grid numSeeds).map (fun p => attemptOf adapt gen p.1 p.2)) :=
  runAttempts_eq_map adapt gen _ _ (fun p _ => generate_task_ok adapt gen p.1 p.2 h)

/-- C1 (code evaluation): under `--dry-run`, `main` builds the grid and
returns before the generation loop: no attempt is made, nothing is written
under the destination — but it also returns before the
`Number of configurations` print, so the grid size is never printed,
contrary to the claim and to the flag's own help text. -/
theorem dry_run_prints_no_grid_size (attributes : List HP)
    (adapt : Config → Except String Config) (gen : Config → Nat → GenResult)
    (numSeeds : Nat) :
    mainRun true attributes adapt gen numSeeds =
      .ok { printedParams := true, printedNumConfigs := none, attempts := [],
            tmpDirCreated := false, tmpDirRemoved := false } := rfl

/-- C2 counterexample: barman configuration cocktails=2, shots=1 (rejected
by adapt) with two requested seeds: the per-seed loop still runs — the
batch holds two rejected attempts and adapt was executed twice (once per
seed), not once as the claim states. -/
theorem rejected_config_counterexample :
    runBatch adapt_parameters_barman (fun _ _ => GenResult.success)
        [(⟨2, 1, 2⟩ : BarmanParams)] 2 =
      .ok [rejectedAttempt "we need shots >= cocktails",
           rejectedAttempt "we need shots >= cocktails"] ∧
    totalAdaptRuns (runBatch adapt_parameters_barman (fun _ _ => GenResult.success)
        [(⟨2, 1, 2⟩ : BarmanParams)] 2) = 2 ∧
    (2 : Nat) ≠ 1 := by
  refine ⟨?_, ?_, by decide⟩ <;>
    simp [runBatch, attemptPairs, List.range_succ, runAttempts, generate_task,
      adapt_parameters_barman, totalAdaptRuns, rejectedAttempt]

/-- C2 amended: for a configuration rejected by adapt, the generator is
never invoked and the reason is logged as a warning — but the rejection is
handled inside the per-attempt handler `generate_task`, so the per-seed
loop is still entered and adapt is re-run (re-logging the reason) once per
requested seed. -/
theorem rejected_config_amended {α : Type} (adapt : α → Except String α)
    (gen : α → Nat → GenResult) (cfg : α) (msg : String) (numSeeds : Nat)
    (h : adapt cfg = .error msg) :
    (∀ seed, generate_task adapt gen cfg seed = .ok (rejectedAttempt msg)) ∧
    (@rejectedAttempt α msg).generatorInvoked = false ∧
    (@rejectedAttempt α msg).filesCollected = false ∧
    (@rejectedAttempt α msg).log =
      [.warning ("Skipping illegal configuration: " ++ msg)] ∧
    runBatch adapt gen [cfg] numSeeds =
      .ok (List.replicate numSeeds (rejectedAttempt msg)) ∧
    totalAdaptRuns (runBatch adapt gen [cfg] numSeeds) = numSeeds := by
  have hgt : ∀ seed, generate_task adapt gen cfg seed = .ok (rejectedAttempt msg) :=
    fun seed => by simp [generate_task, h]
  have hpairs : attemptPairs [cfg] numSeeds = (List.range numSeeds).map (fun s => (cfg, s)) := by
    simp [attemptPairs]
  have hrb : runBatch adapt gen [cfg] numSeeds =
      .ok (List.replicate numSeeds (rejectedAttempt msg)) := by
    rw [runBatch, hpairs]
    rw [runAttempts_eq_map adapt gen _ (fun _ => rejectedAttempt msg) (fun p hp => by
      obtain ⟨s, _, rfl⟩ := List.mem_map.mp hp
      exact hgt s)]
    rw [List.map_map]
    rw [show ((fun _ => rejectedAttempt msg) ∘ fun (s : Nat) => (cfg, s)) =
        (fun (_ : Nat) => @rejectedAttempt α msg) from rfl]
    rw [List.map_const', List.length_range]
  refine ⟨hgt, rfl, rfl, rfl, hrb, ?_⟩
  rw [hrb]
  simp [totalAdaptRuns, rejectedAttempt]

theorem rejected_config_amended_witness :
    runBatch adapt_parameters_barman (fun _ _ => GenResult.success)
        [(⟨2, 1, 2⟩ : BarmanParams)] 3 =
      .ok (List.replicate 3 (rejectedAttempt "we need shots >= cocktails")) ∧
    totalAdaptRuns (runBatch adapt_parameters_barman (fun _ _ => GenResult.success)
        [(⟨2, 1, 2⟩ : BarmanParams)] 3) = 3 :=
  ⟨(rejected_config_amended adapt_parameters_barman (fun _ _ => GenResult.success)
      ⟨2, 1, 2⟩ "we need shots >= cocktails" 3 (by simp [adapt_parameters_barman])).2.2.2.2.1,
   (rejected_config_amended adapt_parameters_barman (fun _ _ => GenResult.success)
      ⟨2, 1, 2⟩ "we need shots >= cocktails" 3 (by simp [adapt_parameters_barman])).2.2.2.2.2⟩

/-- C6: under an oracle that only reports the three expected per-attempt
failure kinds (no uncaught exception), the batch completes with exactly one
attempt per (configuration, seed) pair, each attempt's result is a function
of its own pair alone, and replacing the generator's behaviour on one
attempt changes no other attempt's outcome. -/
theorem expected_failures_recovered {α : Type} (adapt : α → Except String α)
    (gen : α → Nat → GenResult) (grid : List α) (numSeeds : Nat)
    (h : ∀ c s m, gen c s ≠ .fatal m) :
    (runBatch adapt gen grid numSeeds =
      .ok ((attemptPairs grid numSeeds).map (fun p => attemptOf adapt gen p.1 p.2))) ∧
    ((attemptPairs grid numSeeds).map (fun p => attemptOf adapt gen p.1 p.2)).length =
      grid.length * numSeeds ∧
    (∀ (gen' : α → Nat → GenResult) (c0 : α) (s0 : Nat),
      (∀ c s, (c, s) ≠ (c0, s0) → gen' c s = gen c s) →
      ∀ p ∈ attemptPairs grid numSeeds,
        (∀ c', adapt p.1 = .ok c' → (c', p.2) ≠ (c0, s0)) →
        attemptOf adapt gen' p.1 p.2 = attemptOf adapt gen p.1 p.2) := by
  refine ⟨runBatch_ok adapt gen grid numSeeds h, ?_, ?_⟩
  · rw [List.length_map, attemptPairs_length]
  · intro gen' c0 s0 hagree p _ hne
    cases hA : adapt p.1 with
    | error e => simp [attemptOf, generate_task, hA]
    | ok c' =>
        have hg : gen' c' p.2 = gen c' p.2 := hagree c' p.2 (hne c' hA)
        simp [attemptOf, generate_task, hA, hg]

theorem expected_failures_recovered_witness :
    ((attemptPairs [(⟨2, 3, 2⟩ : BarmanParams)] 1).map
      (fun p => attemptOf adapt_parameters_barman (fun _ _ => GenResult.success) p.1 p.2)).length = 1 :=
  (expected_failures_recovered adapt_parameters_barman (fun _ _ => GenResult.success)
    [(⟨2, 3, 2⟩ : BarmanParams)] 1 (fun _ _ _ => by simp)).2.1

/-- C4: for every Domain Definition the grid size is the product of the
parameters' admissible-set cardinalities (integer ranges with step 1
contribute upper−lower+1 values, stepped ranges the stepped values,
categoricals their choices, constants one); ferry's grid has 900 points and
a full non-dry run with two random seeds makes exactly 1800 generation
attempts, each invoking the generator. -/
theorem grid_size_law_and_ferry :
    (∀ hps : List HP, (gridOf hps).length = (hps.map (fun hp => hp.values.length)).prod) ∧
    (∀ (name : String) (lo hi : Int), lo ≤ hi →
        (((get_int name lo hi).values.length : Int) = hi - lo + 1)) ∧
    (∀ (name : String) (lo hi step : Int), step ≠ 1 →
        (get_int name lo hi step).values = (stepRangeList lo hi step).map Value.int) ∧
    (∀ (name : String) (choices : List Value), (get_enum name choices).values = choices) ∧
    (∀ (name : String) (v : Value), (HP.const name v).values = [v]) ∧
    ((gridOf ferry.attributes).length = 900) ∧
    (∀ gen : Config → Nat → GenResult, (∀ c s m, gen c s ≠ .fatal m) →
      runBatch adaptId gen (gridOf ferry.attributes) 2 =
        .ok ((attemptPairs (gridOf ferry.attributes) 2).map
          (fun p => attemptOf adaptId gen p.1 p.2)) ∧
      ((attemptPairs (gridOf ferry.attributes) 2).map
          (fun p => attemptOf adaptId gen p.1 p.2)).length = 1800 ∧
      ∀ a ∈ (attemptPairs (gridOf ferry.attributes) 2).map
          (fun p => attemptOf adaptId gen p.1 p.2), a.generatorInvoked = true) := by
  have h900 : (gridOf ferry.attributes).length = 900 := by
    rw [gridOf_length]
    simp only [ferry, get_int, if_pos rfl, List.map_cons, List.map_nil, List.prod_cons,
      List.prod_nil, HP.values, List.length_map, intRangeList_length]
    rfl
  refine ⟨gridOf_length, fun name lo hi h => ?_, fun name lo hi step h => ?_,
    fun name choices => rfl, fun name v => rfl, h900, fun gen h => ?_⟩
  · unfold get_int
    rw [if_pos rfl]
    simp only [HP.values, List.length_map, intRangeList_length]
    rw [Int.toNat_of_nonneg (by omega)]
    ring
  · simp [get_int, h, HP.values]
  · refine ⟨runBatch_ok adaptId gen _ 2 h, ?_, ?_⟩
    · rw [List.length_map, attemptPairs_length, h900]
    · intro a ha
      obtain ⟨p, hp, rfl⟩ := List.mem_map.mp ha
      cases hG : gen p.1 p.2 with
      | fatal m => exact absurd hG (h p.1 p.2 m)
      | success => simp [attemptOf, generate_task, adaptId, hG]
      | calledProcessError m => simp [attemptOf, generate_task, adaptId, hG]
      | timeoutExpired m => simp [attemptOf, generate_task, adaptId, hG]

theorem grid_size_law_and_ferry_witness :
    (((get_int "locations" 1 30).values.length : Int) = 30 - 1 + 1) ∧
    ((get_int "days" 60 300 20).values = (stepRangeList 60 300 20).map Value.int) ∧
    ((attemptPairs (gridOf ferry.attributes) 2).map
        (fun p => attemptOf adaptId (fun _ _ => GenResult.success) p.1 p.2)).length = 1800 :=
  ⟨grid_size_law_and_ferry.2.1 "locations" 1 30 (by norm_num),
   grid_size_law_and_ferry.2.2.1 "days" 60 300 20 (by norm_num),
   (grid_size_law_and_ferry.2.2.2.2.2.2 (fun _ _ => GenResult.success)
     (fun _ _ _ => by simp)).2.1⟩

/-- C8: every non-dry run (modelled from the spec for the temp-directory
creation, which lives in the absent `utils.py`) creates the temporary
working directory under the destination before the loop and removes it
after, no matter what mix of rejections, process errors and timeouts the
attempts produce, and prints the total grid size on exit. -/
theorem tmp_dir_created_and_removed (attributes : List HP)
    (adapt : Config → Except String Config) (gen : Config → Nat → GenResult)
    (numSeeds : Nat) (h : ∀ c s m, gen c s ≠ .fatal m) :
    mainRun false attributes adapt gen numSeeds =
      .ok { printedParams := true,
            printedNumConfigs := some (gridOf attributes).length,
            attempts := (attemptPairs (gridOf attributes) numSeeds).map
              (fun p => attemptOf adapt gen p.1 p.2),
            tmpDirCreated := true, tmpDirRemoved := true } := by
  have hb := runBatch_ok adapt gen (gridOf attributes) numSeeds h
  simp [mainRun, hb]

theorem tmp_dir_created_and_removed_witness :
    mainRun false [get_int "n" 1 2] adaptId (fun _ _ => GenResult.calledProcessError "boom") 1 =
      .ok { printedParams := true,
            printedNumConfigs := some (gridOf [get_int "n" 1 2]).length,
            attempts := (attemptPairs (gridOf [get_int "n" 1 2]) 1).map
              (fun p => attemptOf adaptId (fun _ _ => GenResult.calledProcessError "boom") p.1 p.2),
            tmpDirCreated := true, tmpDirRemoved := true } :=
  tmp_dir_created_and_removed [get_int "n" 1 2] adaptId
    (fun _ _ => GenResult.calledProcessError "boom") 1 (fun _ _ _ => by simp)

/-- C9: `generate_problem` selects between exactly two output conventions
by whether the command template contains the `TMP_PROBLEM` sentinel — run
and move the fixed-name file after a zero exit, or capture standard output
into the problem file — and moves the fixed-name domain file exactly when
the template contains the `TMP_DOMAIN` sentinel; a non-zero exit or a
timeout raises before any move. -/
theorem generate_problem_output_conventions (d : Domain) (pf df : String) :
    (strContains d.command_template TMP_PROBLEM = true →
      d.generate_problem pf df .exitZero =
        .ok ([Step.runWait, Step.move TMP_PROBLEM pf] ++ domainFileSteps d df)) ∧
    (strContains d.command_template TMP_PROBLEM = false →
      d.generate_problem pf df .exitZero =
        .ok ([Step.runToFile pf] ++ domainFileSteps d df)) ∧
    (d.uses_per_instance_domain_file = true →
      domainFileSteps d df = [Step.move TMP_DOMAIN df]) ∧
    (d.uses_per_instance_domain_file = false → domainFileSteps d df = []) ∧
    d.generate_problem pf df .exitNonZero = .error "CalledProcessError" ∧
    d.generate_problem pf df .timedOut = .error "TimeoutExpired" := by
  refine ⟨fun h => ?_, fun h => ?_, fun h => ?_, fun h => ?_, rfl, rfl⟩ <;>
    simp [Domain.generate_problem, domainFileSteps, h]

theorem generate_problem_output_conventions_witness :
    (tpp.generate_problem "p01.pddl" "d01.pddl" .exitZero =
      .ok ([Step.runWait, Step.move TMP_PROBLEM "p01.pddl"] ++ domainFileSteps tpp "d01.pddl")) ∧
    (ferry.generate_problem "p02.pddl" "d02.pddl" .exitZero =
      .ok ([Step.runToFile "p02.pddl"] ++ domainFileSteps ferry "d02.pddl")) ∧
    domainFileSteps pathways "d03.pddl" = [Step.move TMP_DOMAIN "d03.pddl"] ∧
    domainFileSteps tpp "d01.pddl" = [] :=
  ⟨(generate_problem_output_conventions tpp "p01.pddl" "d01.pddl").1 rfl,
   (generate_problem_output_conventions ferry "p02.pddl" "d02.pddl").2.1 rfl,
   (generate_problem_output_conventions pathways "p03.pddl" "d03.pddl").2.2.1 rfl,
   (generate_problem_output_conventions tpp "p01.pddl" "d01.pddl").2.2.2.1 rfl⟩

theorem listUpdateAt_getD_ne {β : Type} (l : List β) (r r' : Nat) (f : β → β) (d : β)
    (h : r' ≠ r) : (listUpdateAt l r f).getD r' d = l.getD r' d := by
  induction l generalizing r r' with
  | nil => rfl
  | cons x t ih =>
      cases r with
      | zero =>
          cases r' with
          | zero => exact absurd rfl h
          | succ m => simp [listUpdateAt]
      | succ n =>
          cases r' with
          | zero => simp [listUpdateAt]
          | succ m =>
              simp only [listUpdateAt, List.getD_cons_succ]
              exact ih n m (fun e => h (by rw [e]))

theorem Heap.write_ref_ne (h : Heap) (r : Nat) (k : String) (v : Rat) (r' : Nat)
    (hne : r' ≠ r) : (h.write r k v).ref r' = h.ref r' :=
  listUpdateAt_getD_ne h.dicts r r' _ _ hne

theorem Heap.alloc_ref_lt (h : Heap) (d : HDict) (r : Nat) (hr : r < h.dicts.length) :
    ((h.alloc d).1).ref r = h.ref r := by
  simp only [Heap.alloc, Heap.ref]
  exact List.getD_append h.dicts [d] [] r hr

theorem heapBarman_frame (h : Heap) (r r' : Nat) (_hne : r' ≠ r) :
    ((heapBarman h r).1).ref r' = h.ref r' := by
  unfold heapBarman
  split <;> rfl

theorem heapFloortile_frame (h : Heap) (r r' : Nat) (_hne : r' ≠ r) :
    ((heapFloortile h r).1).ref r' = h.ref r' :=
  Heap.write_ref_ne h r "robots" _ r' _hne

theorem heapFreecell_frame (h : Heap) (r r' : Nat) (_hne : r' ≠ r) :
    ((heapFreecell h r).1).ref r' = h.ref r' := by
  unfold heapFreecell
  split <;> rfl

theorem heapGrid_frame (h : Heap) (r r' : Nat) (hne : r' ≠ r) :
    ((heapGrid h r).1).ref r' = h.ref r' := by
  simp only [heapGrid]
  rw [Heap.write_ref_ne _ _ _ _ _ hne, Heap.write_ref_ne _ _ _ _ _ hne,
    Heap.write_ref_ne _ _ _ _ _ hne, Heap.write_ref_ne _ _ _ _ _ hne]

theorem heapHiking_frame (h : Heap) (r r' : Nat) (_hne : r' ≠ r) :
    ((heapHiking h r).1).ref r' = h.ref r' := by
  unfold heapHiking
  split <;> rfl

theorem heapMaintenance_frame (h : Heap) (r r' : Nat) (hne : r' ≠ r) :
    ((heapMaintenance h r).1).ref r' = h.ref r' := by
  simp only [heapMaintenance]
  rw [Heap.write_ref_ne _ _ _ _ _ hne, Heap.write_ref_ne _ _ _ _ _ hne,
    Heap.write_ref_ne _ _ _ _ _ hne, Heap.write_ref_ne _ _ _ _ _ hne]

theorem heapSpanner_frame (h : Heap) (r r' : Nat) (_hne : r' ≠ r) :
    ((heapSpanner h r).1).ref r' = h.ref r' := by
  unfold heapSpanner
  split <;> rfl

theorem heapSokoban_frame (h : Heap) (r r' : Nat) (_hne : r' ≠ r) :
    ((heapSokoban h r).1).ref r' = h.ref r' := by
  simp only [heapSokoban]
  split <;> split <;> rfl

theorem heapTetris_frame (h : Heap) (r r' : Nat) (_hne : r' ≠ r) :
    ((heapTetris h r).1).ref r' = h.ref r' := by
  unfold heapTetris
  split <;> rfl

theorem heapTidybot_frame (h : Heap) (r r' : Nat) (_hne : r' ≠ r) :
    ((heapTidybot h r).1).ref r' = h.ref r' := by
  unfold heapTidybot
  split <;> rfl

theorem heapAdaptParameters_frame (f : HeapBody)
    (hf : ∀ (h : Heap) (r r' : Nat), r' ≠ r → ((f h r).1).ref r' = h.ref r')
    (h : Heap) (r : Nat) (hr : r < h.dicts.length) :
    ((heapAdaptParameters (some f) h r).1).ref r = h.ref r := by
  show ((f (h.alloc (h.ref r)).1 (h.alloc (h.ref r)).2).1).ref r = h.ref r
  have h2 : (h.alloc (h.ref r)).2 = h.dicts.length := rfl
  rw [h2, hf _ _ r (Nat.ne_of_lt hr), Heap.alloc_ref_lt h _ r hr]

/-- C10: for every adapt callable in the registry (and for domains without
one), `Domain.adapt_parameters` never mutates the caller's dict: the
callable operates on `parameters.copy()`, so whether it repairs, accepts or
raises, the dict behind the caller's reference holds exactly the same
key-value pairs afterwards, and the same configuration object can be safely
reused across the per-seed loop. -/
theorem adapt_parameters_no_mutation (a : AdaptFn) (h : Heap) (r : Nat)
    (hr : r < h.dicts.length) :
    ((heapAdaptParameters (heapAdaptBody a) h r).1).ref r = h.ref r := by
  cases a with
  | noAdapt => rfl
  | barmanA => exact heapAdaptParameters_frame heapBarman heapBarman_frame h r hr
  | floortileA => exact heapAdaptParameters_frame heapFloortile heapFloortile_frame h r hr
  | freecellA => exact heapAdaptParameters_frame heapFreecell heapFreecell_frame h r hr
  | gridA => exact heapAdaptParameters_frame heapGrid heapGrid_frame h r hr
  | hikingA => exact heapAdaptParameters_frame heapHiking heapHiking_frame h r hr
  | maintenanceA => exact heapAdaptParameters_frame heapMaintenance heapMaintenance_frame h r hr
  | spannerA => exact heapAdaptParameters_frame heapSpanner heapSpanner_frame h r hr
  | sokobanA => exact heapAdaptParameters_frame heapSokoban heapSokoban_frame h r hr
  | tetrisA => exact heapAdaptParameters_frame heapTetris heapTetris_frame h r hr
  | tidybotA => exact heapAdaptParameters_frame heapTidybot heapTidybot_frame h r hr

theorem adapt_parameters_no_mutation_witness :
    ((heapAdaptParameters (heapAdaptBody AdaptFn.gridA)
        ⟨[[("x", 4), ("y", 4), ("shapes", 2), ("extra_keys", 1),
           ("percentage_cells_locked", (3:Rat)/10)]]⟩ 0).1).ref 0 =
      Heap.ref ⟨[[("x", 4), ("y", 4), ("shapes", 2), ("extra_keys", 1),
           ("percentage_cells_locked", (3:Rat)/10)]]⟩ 0 :=
  adapt_parameters_no_mutation AdaptFn.gridA
    ⟨[[("x", 4), ("y", 4), ("shapes", 2), ("extra_keys", 1),
       ("percentage_cells_locked", (3:Rat)/10)]]⟩ 0 (by simp)
